import Mathlib

/-!
Verification of the network replication core of 301CR-Advanced-Games-Core.

The development shallowly embeds the C++ sources:
* `ByteBuffer` (stack-like byte container, src/unnamed/part_001),
* the `Encode` / `Decode` template specializations (src/unnamed/part_002,
  section Encoding.h),
* the RPC registration and dispatch macro scheme (src/unnamed/part_002,
  section NetTypes.h: RPC_INDEX / RPC_EXEC / __CallRPC),
* the net role predicates of `NetSerializableBase`,
* `NetHostSession` handshake verification and client tracking
  (src/unnamed/part_002, section NetHostSession.cpp) and
  `DefaultNetLayer::OnDecodeHandshake` (src/unnamed/part_000).

Machine integers are modelled as `Nat` (respectively `Int` for the signed
types) with explicit reduction mod `2 ^ w`; bytes are `Nat` values kept
below 256 by the `Push` truncation, exactly as the C++ `uint8` conversion
truncates.  The C++ integer promotions are modelled exactly: a popped
`uint8` promotes to 32-bit `int` before it is shifted, so in the 64-bit
decoders the shift counts of 32 to 56 meet or exceed the operand width;
that shift is undefined behaviour which the actual targets (x86) resolve
by masking the count to 5 bits, and the 32-bit intermediate then wraps
and is sign-extended by the wider addition (`promotedShift` below).  For
the 8/16/32-bit decoders the promoted arithmetic is exact modulo the
destination width, so their terms are written as plain products.
-/

namespace NetCore

/-- ByteBuffer (src/unnamed/part_001): a stack structure for IO using binary
data.  `m_data` is a vector of bytes; `Push` appends at the end (the argument
is converted to `uint8`, i.e. reduced mod 256), `Pop` removes from the end. -/
structure ByteBuffer where
  data : List Nat
deriving DecidableEq, Repr

/-- A freshly constructed, empty buffer. -/
def ByteBuffer.empty : ByteBuffer := ⟨[]⟩

/-- ByteBuffer::Size — number of stored bytes. -/
def ByteBuffer.Size (b : ByteBuffer) : Nat := b.data.length

/-- ByteBuffer::Push — append one byte at the end (uint8 truncation). -/
def ByteBuffer.Push (b : ByteBuffer) (x : Nat) : ByteBuffer := ⟨b.data ++ [x % 256]⟩

/-- ByteBuffer::Pop — remove and return the last byte.  Popping an empty
buffer is undefined in the source (callers must check `Size` first); the
model returns 0 there, but every guarded decode path below never reaches
that case. -/
def ByteBuffer.Pop (b : ByteBuffer) : Nat × ByteBuffer :=
  (b.data.getLastD 0, ⟨b.data.dropLast⟩)

/-- Modelled from the spec: `ByteBuffer::Flip` is used by the session receive
path (src/unnamed/part_002, NetHostSession::Update) but its implementation is
not under src/.  The spec glossary defines Flip as "reversing a buffer's
read order so sequentially-encoded fields can be decoded front-to-back". -/
def ByteBuffer.Flip (b : ByteBuffer) : ByteBuffer := ⟨b.data.reverse⟩

/-! ## Encode specializations (Encoding.h)

Each integer Encode pushes the value byte by byte, least-significant byte
first: `buffer.Push(data >> k * 8)` for `k = 0, 1, ...`. -/

/-- Encode of uint8. -/
def Encode_uint8 (b : ByteBuffer) (v : Nat) : ByteBuffer := b.Push v

/-- Encode of uint16: two pushes, LSB first. -/
def Encode_uint16 (b : ByteBuffer) (v : Nat) : ByteBuffer :=
  ((b.Push (v / 2 ^ (0 * 8))).Push (v / 2 ^ (1 * 8)))

/-- Encode of uint32: four pushes, LSB first. -/
def Encode_uint32 (b : ByteBuffer) (v : Nat) : ByteBuffer :=
  ((((b.Push (v / 2 ^ (0 * 8))).Push (v / 2 ^ (1 * 8))).Push
      (v / 2 ^ (2 * 8))).Push (v / 2 ^ (3 * 8)))

/-- Encode of uint64: eight pushes, LSB first. -/
def Encode_uint64 (b : ByteBuffer) (v : Nat) : ByteBuffer :=
  ((((((((b.Push (v / 2 ^ (0 * 8))).Push (v / 2 ^ (1 * 8))).Push
      (v / 2 ^ (2 * 8))).Push (v / 2 ^ (3 * 8))).Push
      (v / 2 ^ (4 * 8))).Push (v / 2 ^ (5 * 8))).Push
      (v / 2 ^ (6 * 8))).Push (v / 2 ^ (7 * 8)))

/-! ## Decode specializations (Encoding.h)

Each integer Decode first zeroes `out`, then checks the remaining size
against the byte width of the type and fails without popping when the
buffer is too small; otherwise it pops byte by byte, adding the first
popped byte at the lowest position: `out += buffer.Pop() << k * 8`.
The decoders are modelled as functions from the buffer and the initial
value of the `out` reference to the returned flag, the remaining buffer,
and the final value of `out`. -/

/-- Decode of uint8. -/
def Decode_uint8 (b : ByteBuffer) (_out : Nat) : Bool × ByteBuffer × Nat :=
  if b.Size < 1 then (false, b, 0)
  else
    let (x0, b0) := b.Pop
    (true, b0, x0 % 2 ^ 8)

/-- Decode of uint16: two pops, first popped byte at the lowest position. -/
def Decode_uint16 (b : ByteBuffer) (_out : Nat) : Bool × ByteBuffer × Nat :=
  if b.Size < 2 then (false, b, 0)
  else
    let (x0, b0) := b.Pop
    let (x1, b1) := b0.Pop
    (true, b1, (x0 * 2 ^ (0 * 8) + x1 * 2 ^ (1 * 8)) % 2 ^ 16)

/-- Decode of uint32: four pops, first popped byte at the lowest position. -/
def Decode_uint32 (b : ByteBuffer) (_out : Nat) : Bool × ByteBuffer × Nat :=
  if b.Size < 4 then (false, b, 0)
  else
    let (x0, b0) := b.Pop
    let (x1, b1) := b0.Pop
    let (x2, b2) := b1.Pop
    let (x3, b3) := b2.Pop
    (true, b3,
      (x0 * 2 ^ (0 * 8) + x1 * 2 ^ (1 * 8) + x2 * 2 ^ (2 * 8) +
        x3 * 2 ^ (3 * 8)) % 2 ^ 32)

/-- The value of the C++ term `buffer.Pop() << k * 8` as the 64-bit
decoders compute it: the popped `uint8` promotes to 32-bit `int`, the
shift masks its count to 5 bits (the de-facto x86 resolution of the
undefined shift once the count reaches the operand width), the 32-bit
result wraps, and the subsequent 64-bit addition sign-extends it.  For
shifts below 32 with small operands this is the exact product. -/
def promotedShift (x s : Nat) : Int :=
  let w : Nat := (x * 2 ^ (s % 32)) % 2 ^ 32
  if w < 2 ^ 31 then (w : Int) else (w : Int) - 2 ^ 32

/-- Decode of uint64: eight pops, first popped byte at the lowest position.
Each term is the promoted 32-bit shift — masked, wrapped and sign-extended
— so the contributions meant for bytes 4 to 7 land on bytes 0 to 3, and the
sum accumulates into the uint64 out mod 2 ^ 64. -/
def Decode_uint64 (b : ByteBuffer) (_out : Nat) : Bool × ByteBuffer × Nat :=
  if b.Size < 8 then (false, b, 0)
  else
    let (x0, b0) := b.Pop
    let (x1, b1) := b0.Pop
    let (x2, b2) := b1.Pop
    let (x3, b3) := b2.Pop
    let (x4, b4) := b3.Pop
    let (x5, b5) := b4.Pop
    let (x6, b6) := b5.Pop
    let (x7, b7) := b6.Pop
    (true, b7,
      ((promotedShift x0 (0 * 8) + promotedShift x1 (1 * 8) +
        promotedShift x2 (2 * 8) + promotedShift x3 (3 * 8) +
        promotedShift x4 (4 * 8) + promotedShift x5 (5 * 8) +
        promotedShift x6 (6 * 8) + promotedShift x7 (7 * 8)) %
        (2 ^ 64 : Int)).toNat)

example : Decode_uint16 (Encode_uint16 ByteBuffer.empty 1) 0 =
    (true, ByteBuffer.empty, 256) := by decide

example : Decode_uint16 ((Encode_uint16 ByteBuffer.empty 258).Flip) 0 =
    (true, ByteBuffer.empty, 258) := by decide

/-! ## Signed integers and float

The signed specializations push and pop the same byte patterns; the out
parameter is a signed machine integer, so the reassembled value is
interpreted in two's complement.  `toUnsigned` gives the stored bit
pattern of a signed value and `toSigned` the two's-complement reading of
a pattern. -/

/-- Bit pattern (mod 2 ^ w) of a signed value, as stored by the uint8
truncation of the arithmetic shifts in the signed Encode bodies. -/
def toUnsigned (w : Nat) (v : Int) : Nat := (v % (2 ^ w : Int)).toNat

/-- Two's-complement reading of a w-bit pattern, as produced when the
accumulated bytes are stored into the signed out parameter. -/
def toSigned (w : Nat) (n : Nat) : Int :=
  if n < 2 ^ (w - 1) then (n : Int) else (n : Int) - 2 ^ w

/-- Encode of int8: one push of the two's-complement byte. -/
def Encode_int8 (b : ByteBuffer) (v : Int) : ByteBuffer :=
  Encode_uint8 b (toUnsigned 8 v)

/-- Encode of int16: same pushes as uint16 on the two's-complement pattern. -/
def Encode_int16 (b : ByteBuffer) (v : Int) : ByteBuffer :=
  Encode_uint16 b (toUnsigned 16 v)

/-- Encode of int32: same pushes as uint32 on the two's-complement pattern. -/
def Encode_int32 (b : ByteBuffer) (v : Int) : ByteBuffer :=
  Encode_uint32 b (toUnsigned 32 v)

/-- Encode of int64: same pushes as uint64 on the two's-complement pattern. -/
def Encode_int64 (b : ByteBuffer) (v : Int) : ByteBuffer :=
  Encode_uint64 b (toUnsigned 64 v)

/-- Decode of int8: same pop as uint8, stored into a signed out. -/
def Decode_int8 (b : ByteBuffer) (_out : Int) : Bool × ByteBuffer × Int :=
  let r := Decode_uint8 b 0
  (r.1, r.2.1, if r.1 then toSigned 8 r.2.2 else 0)

/-- Decode of int16: same pops as uint16, stored into a signed out. -/
def Decode_int16 (b : ByteBuffer) (_out : Int) : Bool × ByteBuffer × Int :=
  let r := Decode_uint16 b 0
  (r.1, r.2.1, if r.1 then toSigned 16 r.2.2 else 0)

/-- Decode of int32: same pops as uint32, stored into a signed out. -/
def Decode_int32 (b : ByteBuffer) (_out : Int) : Bool × ByteBuffer × Int :=
  let r := Decode_uint32 b 0
  (r.1, r.2.1, if r.1 then toSigned 32 r.2.2 else 0)

/-- Decode of int64: the same promoted-shift pops as uint64 (the int64
accumulation wraps at the same 2 ^ 64 with the same sign-extended 32-bit
terms), stored into a signed out. -/
def Decode_int64 (b : ByteBuffer) (_out : Int) : Bool × ByteBuffer × Int :=
  let r := Decode_uint64 b 0
  (r.1, r.2.1, if r.1 then toSigned 64 r.2.2 else 0)

/-- Encode of float (32-bit): the source memcpys the float bits into an
`int` and encodes that via the int32 path, so the four pushed bytes are the
little-endian bytes of the IEEE bit pattern.  The model takes the 32-bit
pattern directly. -/
def Encode_float (b : ByteBuffer) (bits : Nat) : ByteBuffer :=
  Encode_int32 b (toSigned 32 (bits % 2 ^ 32))

/-- Decode of float (32-bit): guard on size, then decode a uint32 and
memcpy its bits into the out float.  Note the guard-failure path returns
before touching `out`, so the initial value is preserved there. -/
def Decode_float (b : ByteBuffer) (out : Nat) : Bool × ByteBuffer × Nat :=
  if b.Size < 4 then (false, b, out)
  else
    let r := Decode_uint32 b 0
    (true, r.2.1, r.2.2)

example : Decode_int16 ((Encode_int16 ByteBuffer.empty (-2)).Flip) 0 =
    (true, ByteBuffer.empty, -2) := by decide

example : Decode_float ((Encode_float ByteBuffer.empty 3212836864).Flip) 0 =
    (true, ByteBuffer.empty, 3212836864) := by decide

/-! ## Claim C1: primitive round trips -/

/-- C1 counterexample: decoding immediately after encoding does NOT return
the encoded value.  For `v = 1 : uint16` the encoder pushes the bytes
LSB-first, so the stack pop order hands the decoder the MSB first, which it
places at the lowest position: the decode succeeds but yields 256, not 1.
The round trip only holds after the receive-path Flip of the buffer. -/
theorem c1_counterexample :
    Decode_uint16 (Encode_uint16 ByteBuffer.empty 1) 0 =
      (true, ByteBuffer.empty, 256) ∧ (256 : Nat) ≠ 1 := by
  exact ⟨by decide, by decide⟩

/-- Round trip of uint8 through Flip. -/
lemma roundtrip_u8 (v : Nat) (h : v < 2 ^ 8) :
    Decode_uint8 ((Encode_uint8 ByteBuffer.empty v).Flip) 0 =
      (true, ByteBuffer.empty, v) := by
  simp [Decode_uint8, Encode_uint8, ByteBuffer.Flip, ByteBuffer.Push,
    ByteBuffer.Pop, ByteBuffer.Size, ByteBuffer.empty, List.getLastD]
  omega

/-- Round trip of uint16 through Flip. -/
lemma roundtrip_u16 (v : Nat) (h : v < 2 ^ 16) :
    Decode_uint16 ((Encode_uint16 ByteBuffer.empty v).Flip) 0 =
      (true, ByteBuffer.empty, v) := by
  simp [Decode_uint16, Encode_uint16, ByteBuffer.Flip, ByteBuffer.Push,
    ByteBuffer.Pop, ByteBuffer.Size, ByteBuffer.empty, List.getLastD]
  omega

/-- Round trip of uint32 through Flip. -/
lemma roundtrip_u32 (v : Nat) (h : v < 2 ^ 32) :
    Decode_uint32 ((Encode_uint32 ByteBuffer.empty v).Flip) 0 =
      (true, ByteBuffer.empty, v) := by
  simp [Decode_uint32, Encode_uint32, ByteBuffer.Flip, ByteBuffer.Push,
    ByteBuffer.Pop, ByteBuffer.Size, ByteBuffer.empty, List.getLastD]
  omega

/-- Round trip of uint64 through Flip, only available below 2 ^ 31: with
all of bytes 4 to 7 zero and byte 3 below 128, every promoted shift is the
exact product, so the value is reassembled; any higher value is garbled by
the masked shifts and the sign extension. -/
lemma roundtrip_u64 (v : Nat) (h : v < 2 ^ 31) :
    Decode_uint64 ((Encode_uint64 ByteBuffer.empty v).Flip) 0 =
      (true, ByteBuffer.empty, v) := by
  have e4 : v / 4294967296 = 0 := by omega
  have e5 : v / 1099511627776 = 0 := by omega
  have e6 : v / 281474976710656 = 0 := by omega
  have e7 : v / 72057594037927936 = 0 := by omega
  have p0 : ∀ s, promotedShift 0 s = 0 := fun s => by simp [promotedShift]
  simp [Decode_uint64, Encode_uint64, ByteBuffer.Flip, ByteBuffer.Push,
    ByteBuffer.Pop, ByteBuffer.Size, ByteBuffer.empty, List.getLastD,
    e4, e5, e6, e7, p0]
  simp only [promotedShift]
  norm_num
  split_ifs <;> omega

/-- Round trip of int8 through Flip. -/
lemma roundtrip_i8 (v : Int) (h1 : -(2 ^ 7) ≤ v) (h2 : v < 2 ^ 7) :
    Decode_int8 ((Encode_int8 ByteBuffer.empty v).Flip) 0 =
      (true, ByteBuffer.empty, v) := by
  simp [Decode_int8, Encode_int8, toUnsigned, toSigned, Decode_uint8,
    Encode_uint8, ByteBuffer.Flip, ByteBuffer.Push, ByteBuffer.Pop,
    ByteBuffer.Size, ByteBuffer.empty, List.getLastD]
  omega

/-- Round trip of int16 through Flip. -/
lemma roundtrip_i16 (v : Int) (h1 : -(2 ^ 15) ≤ v) (h2 : v < 2 ^ 15) :
    Decode_int16 ((Encode_int16 ByteBuffer.empty v).Flip) 0 =
      (true, ByteBuffer.empty, v) := by
  simp [Decode_int16, Encode_int16, toUnsigned, toSigned, Decode_uint16,
    Encode_uint16, ByteBuffer.Flip, ByteBuffer.Push, ByteBuffer.Pop,
    ByteBuffer.Size, ByteBuffer.empty, List.getLastD]
  omega

/-- Round trip of int32 through Flip. -/
lemma roundtrip_i32 (v : Int) (h1 : -(2 ^ 31) ≤ v) (h2 : v < 2 ^ 31) :
    Decode_int32 ((Encode_int32 ByteBuffer.empty v).Flip) 0 =
      (true, ByteBuffer.empty, v) := by
  simp [Decode_int32, Encode_int32, toUnsigned, toSigned, Decode_uint32,
    Encode_uint32, ByteBuffer.Flip, ByteBuffer.Push, ByteBuffer.Pop,
    ByteBuffer.Size, ByteBuffer.empty, List.getLastD]
  omega

/-- Round trip of int64 through Flip, only available on [0, 2 ^ 31): a
negative value stores bytes 4 to 7 as 255, whose masked-shift contributions
land on the low bytes (for example -1 decodes to -2). -/
lemma roundtrip_i64 (v : Int) (h1 : 0 ≤ v) (h2 : v < 2 ^ 31) :
    Decode_int64 ((Encode_int64 ByteBuffer.empty v).Flip) 0 =
      (true, ByteBuffer.empty, v) := by
  have hN : v.toNat < 2 ^ 31 := by omega
  have hu : toUnsigned 64 v = v.toNat := by
    unfold toUnsigned
    have hm : v % ((2 : Int) ^ 64) = v := by omega
    rw [hm]
  have hr := roundtrip_u64 v.toNat hN
  have hs : v.toNat < 2 ^ 63 := by omega
  simp [Decode_int64, Encode_int64, hu, hr, toSigned, hs]
  omega

/-- Round trip of a 32-bit float bit pattern through Flip. -/
lemma roundtrip_f32 (v : Nat) (h : v < 2 ^ 32) :
    Decode_float ((Encode_float ByteBuffer.empty v).Flip) 0 =
      (true, ByteBuffer.empty, v) := by
  simp [Decode_float, Encode_float, Encode_int32, toUnsigned, toSigned,
    Decode_uint32, Encode_uint32, ByteBuffer.Flip, ByteBuffer.Push,
    ByteBuffer.Pop, ByteBuffer.Size, ByteBuffer.empty, List.getLastD]
  omega

set_option maxRecDepth 4096 in
/-- C1 (amended): decoding after the session receive-path Flip of the
encoded buffer succeeds and returns exactly the encoded value, consuming
the whole buffer, for the 8/16/32-bit signed and unsigned integers and the
32-bit float (represented by its IEEE bit pattern); for the 64-bit types
the same holds only for values below 2 ^ 31, because each popped byte is
promoted to 32-bit int before the shift, so the shift counts of 32 to 56
are masked to 0 to 24 on the actual targets and the high four bytes can
never be reconstructed.  The last two conjuncts evaluate that failure:
encoding 2 ^ 40 + 5 as uint64 decodes (through the Flip) to 261, and
encoding -1 as int64 decodes to -2.  Without the Flip the stack pop order
additionally reverses the bytes and even the narrow round trips fail (see
the counterexample). -/
theorem c1_roundtrip_flip
    (u8 u16 u32 u64 : Nat) (s8 s16 s32 s64 : Int) (f : Nat)
    (hu8 : u8 < 2 ^ 8) (hu16 : u16 < 2 ^ 16)
    (hu32 : u32 < 2 ^ 32) (hu64 : u64 < 2 ^ 31)
    (hs8a : -(2 ^ 7) ≤ s8) (hs8b : s8 < 2 ^ 7)
    (hs16a : -(2 ^ 15) ≤ s16) (hs16b : s16 < 2 ^ 15)
    (hs32a : -(2 ^ 31) ≤ s32) (hs32b : s32 < 2 ^ 31)
    (hs64a : 0 ≤ s64) (hs64b : s64 < 2 ^ 31)
    (hf : f < 2 ^ 32) :
    Decode_uint8 ((Encode_uint8 ByteBuffer.empty u8).Flip) 0 =
      (true, ByteBuffer.empty, u8) ∧
    Decode_uint16 ((Encode_uint16 ByteBuffer.empty u16).Flip) 0 =
      (true, ByteBuffer.empty, u16) ∧
    Decode_uint32 ((Encode_uint32 ByteBuffer.empty u32).Flip) 0 =
      (true, ByteBuffer.empty, u32) ∧
    Decode_uint64 ((Encode_uint64 ByteBuffer.empty u64).Flip) 0 =
      (true, ByteBuffer.empty, u64) ∧
    Decode_int8 ((Encode_int8 ByteBuffer.empty s8).Flip) 0 =
      (true, ByteBuffer.empty, s8) ∧
    Decode_int16 ((Encode_int16 ByteBuffer.empty s16).Flip) 0 =
      (true, ByteBuffer.empty, s16) ∧
    Decode_int32 ((Encode_int32 ByteBuffer.empty s32).Flip) 0 =
      (true, ByteBuffer.empty, s32) ∧
    Decode_int64 ((Encode_int64 ByteBuffer.empty s64).Flip) 0 =
      (true, ByteBuffer.empty, s64) ∧
    Decode_float ((Encode_float ByteBuffer.empty f).Flip) 0 =
      (true, ByteBuffer.empty, f) ∧
    Decode_uint64 ((Encode_uint64 ByteBuffer.empty (2 ^ 40 + 5)).Flip) 0 =
      (true, ByteBuffer.empty, 261) ∧
    Decode_int64 ((Encode_int64 ByteBuffer.empty (-1)).Flip) 0 =
      (true, ByteBuffer.empty, -2) :=
  ⟨roundtrip_u8 u8 hu8, roundtrip_u16 u16 hu16, roundtrip_u32 u32 hu32,
    roundtrip_u64 u64 hu64, roundtrip_i8 s8 hs8a hs8b,
    roundtrip_i16 s16 hs16a hs16b, roundtrip_i32 s32 hs32a hs32b,
    roundtrip_i64 s64 hs64a hs64b, roundtrip_f32 f hf,
    by decide, by decide⟩

/-- C1 witness: the amended round trip evaluated at concrete values of each
of the nine primitive types (the 64-bit values within the working range
below 2 ^ 31), together with the two 64-bit failure evaluations. -/
theorem c1_roundtrip_flip_witness :
    Decode_uint8 ((Encode_uint8 ByteBuffer.empty 200).Flip) 0 =
      (true, ByteBuffer.empty, 200) ∧
    Decode_uint16 ((Encode_uint16 ByteBuffer.empty 300).Flip) 0 =
      (true, ByteBuffer.empty, 300) ∧
    Decode_uint32 ((Encode_uint32 ByteBuffer.empty 70000).Flip) 0 =
      (true, ByteBuffer.empty, 70000) ∧
    Decode_uint64 ((Encode_uint64 ByteBuffer.empty 2000000000).Flip) 0 =
      (true, ByteBuffer.empty, 2000000000) ∧
    Decode_int8 ((Encode_int8 ByteBuffer.empty (-5)).Flip) 0 =
      (true, ByteBuffer.empty, -5) ∧
    Decode_int16 ((Encode_int16 ByteBuffer.empty (-300)).Flip) 0 =
      (true, ByteBuffer.empty, -300) ∧
    Decode_int32 ((Encode_int32 ByteBuffer.empty (-70000)).Flip) 0 =
      (true, ByteBuffer.empty, -70000) ∧
    Decode_int64 ((Encode_int64 ByteBuffer.empty 1999999999).Flip) 0 =
      (true, ByteBuffer.empty, 1999999999) ∧
    Decode_float ((Encode_float ByteBuffer.empty 3212836864).Flip) 0 =
      (true, ByteBuffer.empty, 3212836864) ∧
    Decode_uint64 ((Encode_uint64 ByteBuffer.empty (2 ^ 40 + 5)).Flip) 0 =
      (true, ByteBuffer.empty, 261) ∧
    Decode_int64 ((Encode_int64 ByteBuffer.empty (-1)).Flip) 0 =
      (true, ByteBuffer.empty, -2) :=
  c1_roundtrip_flip 200 300 70000 2000000000 (-5) (-300) (-70000)
    1999999999 3212836864
    (by decide) (by decide) (by decide) (by decide)
    (by decide) (by decide) (by decide) (by decide)
    (by decide) (by decide) (by decide) (by decide) (by decide)

/-! ## String encoding (Encoding.h)

A C string is modelled as the list of its character byte values, terminator
excluded; reading the terminator of an exhausted list is the `[]` case. -/

/-- STR_MAX_ENCODE_LEN: maximal encoded length of a string in bytes,
NUL terminator included (default 128, configurable). -/
def STR_MAX_ENCODE_LEN : Nat := 128

/-- Loop of Encode of const char pointer: `for (i = 1; i < STR_MAX_ENCODE_LEN; ++i)`
pushes the current character, returning right after pushing a NUL; when the
loop exhausts its iterations without a terminator, a terminator byte is
force-pushed after the loop (the fuel argument counts remaining iterations,
the fuel-0 case is that forced push). -/
def encodeCStrLoop : Nat → ByteBuffer → List Nat → ByteBuffer
  | 0, b, _ => b.Push 0
  | _ + 1, b, [] => b.Push 0
  | fuel + 1, b, c :: rest =>
      let b1 := b.Push c
      if c = 0 then b1 else encodeCStrLoop fuel b1 rest

/-- Encode of const char pointer and of std::string (the latter encodes
`data.c_str()` through the former). -/
def Encode_string (b : ByteBuffer) (s : List Nat) : ByteBuffer :=
  encodeCStrLoop (STR_MAX_ENCODE_LEN - 1) b s

/-- Loop of Decode of std::string: `while (true)` fails once the buffer is
emptied before a NUL, otherwise pops one byte, succeeding on a NUL and
appending the byte to the out string otherwise.  The fuel only bounds the
iteration count for termination; `Decode_string` supplies the buffer size,
which one pop per iteration can never outrun. -/
def decodeStrLoop : Nat → ByteBuffer → List Nat → Bool × ByteBuffer × List Nat
  | 0, b, acc => (false, b, acc)
  | fuel + 1, b, acc =>
      if b.Size = 0 then (false, b, acc)
      else
        let (c, b1) := b.Pop
        if c = 0 then (true, b1, acc)
        else decodeStrLoop fuel b1 (acc ++ [c])

/-- Decode of std::string.  The source appends to the out string without
clearing it first, so the initial value of `out` is the starting
accumulator. -/
def Decode_string (b : ByteBuffer) (out : List Nat) : Bool × ByteBuffer × List Nat :=
  decodeStrLoop b.Size b out

/-- The encode loop appends the first `fuel` characters and a terminator. -/
lemma encodeCStrLoop_eq (fuel : Nat) (b : ByteBuffer) (s : List Nat)
    (h : ∀ c ∈ s, 0 < c ∧ c < 256) :
    encodeCStrLoop fuel b s = ⟨b.data ++ (s.take fuel ++ [0])⟩ := by
  induction fuel generalizing b s with
  | zero => simp [encodeCStrLoop, ByteBuffer.Push]
  | succ n ih =>
      cases s with
      | nil => simp [encodeCStrLoop, ByteBuffer.Push]
      | cons c rest =>
          have hc := h c (by simp)
          have hne : ¬(c = 0) := by omega
          have hmod : c % 256 = c := Nat.mod_eq_of_lt hc.2
          simp only [encodeCStrLoop, hne, if_false, ByteBuffer.Push, hmod]
          rw [ih ⟨b.data ++ [c]⟩ rest (fun x hx => h x (by simp [hx]))]
          simp

/-- Popping a flipped NUL-terminated byte sequence yields its characters in
order, consuming the whole buffer. -/
lemma decodeStrLoop_flip (l : List Nat) (acc : List Nat) (fuel : Nat)
    (h : ∀ c ∈ l, c ≠ 0) (hf : l.length < fuel) :
    decodeStrLoop fuel ⟨0 :: l.reverse⟩ acc = (true, ByteBuffer.empty, acc ++ l) := by
  induction l generalizing acc fuel with
  | nil =>
      cases fuel with
      | zero => omega
      | succ n =>
          simp [decodeStrLoop, ByteBuffer.Size, ByteBuffer.Pop,
            ByteBuffer.empty, List.getLastD]
  | cons x xs ih =>
      cases fuel with
      | zero => omega
      | succ n =>
          have hx : x ≠ 0 := h x (by simp)
          have hlast : (0 :: (xs.reverse ++ [x])).getLastD 0 = x := by
            rw [show (0 :: (xs.reverse ++ [x])) = (0 :: xs.reverse) ++ [x] by simp]
            exact List.getLastD_concat _ _ _
          have hdrop : (0 :: (xs.reverse ++ [x])).dropLast = 0 :: xs.reverse := by
            rw [show (0 :: (xs.reverse ++ [x])) = (0 :: xs.reverse) ++ [x] by simp]
            exact List.dropLast_concat
          have hstep :
              decodeStrLoop (n + 1) ⟨0 :: (x :: xs).reverse⟩ acc =
                decodeStrLoop n ⟨0 :: xs.reverse⟩ (acc ++ [x]) := by
            simp only [decodeStrLoop, ByteBuffer.Size, ByteBuffer.Pop,
              List.reverse_cons]
            rw [if_neg (by simp)]
            rw [hlast, hdrop, if_neg hx]
          rw [hstep, ih (acc ++ [x]) n (fun c hc => h c (by simp [hc]))
            (by simp at hf ⊢; omega)]
          simp

/-! ## Claim C6: string cap and truncation -/

/-- C6 counterexample: decoding immediately after encoding does not return
the original string.  Encoding "a" pushes the bytes `[97, 0]`; the decode
pops from the end, meets the terminator first and succeeds with the empty
string.  The claimed round trip only holds after the receive-path Flip. -/
theorem c6_counterexample :
    Decode_string (Encode_string ByteBuffer.empty [97]) [] =
      (true, ⟨[97]⟩, []) ∧ ([] : List Nat) ≠ [97] :=
  ⟨by decide, by decide⟩

/-- C6 (amended): encoding appends at most STR_MAX_ENCODE_LEN (128) bytes,
NUL terminator included, and with the session receive-path Flip between
encode and decode the round trip returns exactly the first
STR_MAX_ENCODE_LEN - 1 = 127 characters of the original: the whole string
when its length is at most 127, its 127-character prefix (silent
truncation) when longer.  Characters are nonzero bytes (a C string cannot
contain NUL). -/
theorem c6_string_cap (s : List Nat) (h : ∀ c ∈ s, 0 < c ∧ c < 256) :
    (Encode_string ByteBuffer.empty s).Size ≤ STR_MAX_ENCODE_LEN ∧
    Decode_string ((Encode_string ByteBuffer.empty s).Flip) [] =
      (true, ByteBuffer.empty, s.take (STR_MAX_ENCODE_LEN - 1)) ∧
    (s.length ≤ STR_MAX_ENCODE_LEN - 1 →
      Decode_string ((Encode_string ByteBuffer.empty s).Flip) [] =
        (true, ByteBuffer.empty, s)) := by
  have henc : Encode_string ByteBuffer.empty s =
      ⟨s.take (STR_MAX_ENCODE_LEN - 1) ++ [0]⟩ := by
    simpa [Encode_string, ByteBuffer.empty] using
      encodeCStrLoop_eq (STR_MAX_ENCODE_LEN - 1) ByteBuffer.empty s h
  have hdec : Decode_string ((Encode_string ByteBuffer.empty s).Flip) [] =
      (true, ByteBuffer.empty, s.take (STR_MAX_ENCODE_LEN - 1)) := by
    rw [henc]
    have hflip : (ByteBuffer.Flip ⟨s.take (STR_MAX_ENCODE_LEN - 1) ++ [0]⟩) =
        ⟨0 :: (s.take (STR_MAX_ENCODE_LEN - 1)).reverse⟩ := by
      simp [ByteBuffer.Flip]
    rw [hflip]
    have := decodeStrLoop_flip (s.take (STR_MAX_ENCODE_LEN - 1)) []
      ((ByteBuffer.mk (0 :: (s.take (STR_MAX_ENCODE_LEN - 1)).reverse)).Size)
      (fun c hc => by
        have := h c (List.mem_of_mem_take hc)
        omega)
      (by simp [ByteBuffer.Size])
    simpa [Decode_string] using this
  refine ⟨?_, hdec, fun hlen => ?_⟩
  · rw [henc]
    simp [ByteBuffer.Size, STR_MAX_ENCODE_LEN]
  · rw [hdec, List.take_of_length_le hlen]

/-- C6 witness: the amended statement evaluated at the two-character string
"hi" (bytes 104, 105), which round-trips exactly. -/
theorem c6_string_cap_witness :
    (Encode_string ByteBuffer.empty [104, 105]).Size ≤ STR_MAX_ENCODE_LEN ∧
    Decode_string ((Encode_string ByteBuffer.empty [104, 105]).Flip) [] =
      (true, ByteBuffer.empty, [104, 105]) :=
  ⟨(c6_string_cap [104, 105] (by decide)).1,
   (c6_string_cap [104, 105] (by decide)).2.2 (by decide)⟩

/-! ## Claim C7: decode underrun -/

/-- C7 counterexample: the float decoder does not zero its out parameter on
underrun.  Decoding a float from the empty buffer fails, but the out
parameter keeps its prior value 7 instead of being zeroed as the claim
states for every fixed-width primitive type. -/
theorem c7_counterexample :
    Decode_float ByteBuffer.empty 7 = (false, ByteBuffer.empty, 7) ∧
      (7 : Nat) ≠ 0 :=
  ⟨by decide, by decide⟩

/-- C7 (amended): decoding any fixed-width primitive from a buffer holding
fewer bytes than the type width returns false and pops nothing (the buffer
is returned untouched, so no byte is read, in or out of bounds); the eight
integer decoders zero the out parameter, while the float decoder returns
with the out parameter unchanged (its guard runs before out is ever
assigned). -/
theorem c7_underrun (b : ByteBuffer) (n : Nat) (z : Int) (f : Nat) :
    (b.Size < 1 →
      Decode_uint8 b n = (false, b, 0) ∧ Decode_int8 b z = (false, b, 0)) ∧
    (b.Size < 2 →
      Decode_uint16 b n = (false, b, 0) ∧ Decode_int16 b z = (false, b, 0)) ∧
    (b.Size < 4 →
      Decode_uint32 b n = (false, b, 0) ∧ Decode_int32 b z = (false, b, 0) ∧
      Decode_float b f = (false, b, f)) ∧
    (b.Size < 8 →
      Decode_uint64 b n = (false, b, 0) ∧ Decode_int64 b z = (false, b, 0)) := by
  refine ⟨fun h => ?_, fun h => ?_, fun h => ?_, fun h => ?_⟩
  · simp [Decode_uint8, Decode_int8, h]
  · simp [Decode_uint16, Decode_int16, h]
  · simp [Decode_uint32, Decode_int32, Decode_float, h]
  · simp [Decode_uint64, Decode_int64, h]

/-- C7 witness: the amended statement evaluated on the empty buffer with
out parameters preset to 7. -/
theorem c7_underrun_witness :
    (Decode_uint8 ByteBuffer.empty 7 = (false, ByteBuffer.empty, 0) ∧
      Decode_int8 ByteBuffer.empty 7 = (false, ByteBuffer.empty, 0)) ∧
    (Decode_uint16 ByteBuffer.empty 7 = (false, ByteBuffer.empty, 0) ∧
      Decode_int16 ByteBuffer.empty 7 = (false, ByteBuffer.empty, 0)) ∧
    (Decode_uint32 ByteBuffer.empty 7 = (false, ByteBuffer.empty, 0) ∧
      Decode_int32 ByteBuffer.empty 7 = (false, ByteBuffer.empty, 0) ∧
      Decode_float ByteBuffer.empty 7 = (false, ByteBuffer.empty, 7)) ∧
    (Decode_uint64 ByteBuffer.empty 7 = (false, ByteBuffer.empty, 0) ∧
      Decode_int64 ByteBuffer.empty 7 = (false, ByteBuffer.empty, 0)) := by
  have h := c7_underrun ByteBuffer.empty 7 7 7
  exact ⟨h.1 (by decide), h.2.1 (by decide), h.2.2.1 (by decide),
    h.2.2.2 (by decide)⟩

/-! ## RPC subsystem (NetTypes.h, src/unnamed/part_002) -/

/-- SocketType (NetSocket.h): transport a packet or RPC travels over. -/
inductive SocketType where
  | TCP
  | UDP
deriving DecidableEq, Repr

/-- RPCCallingMode: the calling modes available when calling an RPC. -/
inductive RPCCallingMode where
  | Unknown
  | Host
  | Owner
  | Broadcast
deriving DecidableEq, BEq, Repr

/-- RPCInfo: a registered RPC descriptor (index, calling mode, socket). -/
structure RPCInfo where
  index : Nat
  callingMode : RPCCallingMode
  socket : SocketType
deriving DecidableEq, Repr

/-- NetRole: all the roles a net synced object can have. -/
inductive NetRole where
  | None
  | RemotePuppet
  | HostPuppet
  | RemoteOwner
  | HostOwner
deriving DecidableEq, BEq, Repr

/-- NetSerializableBase::IsNetOwner. -/
def IsNetOwner (r : NetRole) : Bool :=
  (r == NetRole.None) || (r == NetRole.HostOwner) || (r == NetRole.RemoteOwner)

/-- NetSerializableBase::IsNetHost. -/
def IsNetHost (r : NetRole) : Bool :=
  (r == NetRole.HostOwner) || (r == NetRole.HostPuppet)

/-- NetSerializableBase::HasNetControl. -/
def HasNetControl (r : NetRole) : Bool :=
  IsNetOwner r || IsNetHost r

/-- Claim C9: the derived role predicates, exhaustively over the five-role
enumeration.  IsNetOwner holds exactly for None, HostOwner and RemoteOwner;
IsNetHost exactly for HostOwner and HostPuppet; HasNetControl is their
union. -/
theorem c9_role_predicates :
    ∀ r : NetRole,
      (IsNetOwner r = true ↔
        r = NetRole.None ∨ r = NetRole.HostOwner ∨ r = NetRole.RemoteOwner) ∧
      (IsNetHost r = true ↔ r = NetRole.HostOwner ∨ r = NetRole.HostPuppet) ∧
      (HasNetControl r = true ↔ (IsNetOwner r = true ∨ IsNetHost r = true)) := by
  intro r
  cases r <;> exact ⟨by decide, by decide, by decide⟩

/-! ## RPC dispatch chain (RPC_EXEC_HEADER / RPC_EXEC)

A class level is the list of function names in its ExecuteRPC body, in
macro order.  Each RPC_EXEC entry invokes its function when the local id
has reached 0 and otherwise decrements the local id. -/

/-- The RPC_EXEC entries of one override body: invoke the function at the
current id, decrementing on each miss within the same body. -/
def execRPCLevel : List String → Nat → Option String
  | [], _ => none
  | f :: rest, id => if id = 0 then some f else execRPCLevel rest (id - 1)

/-- The ExecuteRPC override chain, levels listed leaf-first; the empty list
is the NetSerializableBase terminus, whose override is modelled from the
spec as registering no entries (its body is not under src/; the macro
scheme requires it to report "not handled" so that subclass tables work at
all).  RPC_EXEC_HEADER copies the incoming id into a local
(`uint16 __TEMP_ID = id;`) and passes that local to `__super::ExecuteRPC`;
the ancestor likewise copies, so the decrements an ancestor performs on its
own local are never written back, and after the ancestor chain misses, this
body tests its own entries against the ORIGINAL id, not the id minus the
ancestor slot count. -/
def ExecuteRPC_chain : List (List String) → Nat → Option String
  | [], _ => none
  | own :: ancestors, id =>
      match ExecuteRPC_chain ancestors id with
      | some f => some f
      | none => execRPCLevel own id

/-- The RPC_INDEX entries of one override body: match the function name,
handing back the running index on a hit and incrementing it on each miss.
The info record is bound by reference in RPC_INDEX_HEADER, so unlike the
execution path the increments are shared along the whole chain. -/
def registerRPCLevel : List String → String → Nat → Option Nat × Nat
  | [], _, idx => (none, idx)
  | f :: rest, name, idx =>
      if f = name then (some idx, idx) else registerRPCLevel rest name (idx + 1)

/-- The RegisterRPCs override chain, levels listed base-first (the header
calls `__super::RegisterRPCs` before this body's own entries); the shared
out-info index keeps accumulating across levels, so a leaf function ends up
with index (ancestor slot count) + (local position). -/
def RegisterRPCs_chain : List (List String) → String → Nat → Option Nat
  | [], _, _ => none
  | lvl :: rest, name, idx =>
      match registerRPCLevel lvl name idx with
      | (some i, _) => some i
      | (none, idx1) => RegisterRPCs_chain rest name idx1

/-- Claim C2: evaluation at the failing input.  Hierarchy: a base class
declaring one RPC "baseFn" (ancestor slot count N = 1) and a leaf class
declaring one RPC "leafFn" (own count M = 1).  Registration assigns
"leafFn" the flattened index N + k = 1 (k = 0), and index 0 correctly
dispatches the ancestor slot; but ExecuteRPC at index 1 dispatches nothing
and reports "not found", instead of invoking the 0-th local RPC of the
leaf as the claim (and the registration table) requires: the ancestor
slot count is never subtracted because the RPC_EXEC_HEADER local id copy
is not written back by the parent call. -/
theorem c2_index_mismatch :
    RegisterRPCs_chain [["baseFn"], ["leafFn"]] "leafFn" 0 = some 1 ∧
    ExecuteRPC_chain [["leafFn"], ["baseFn"]] 0 = some "baseFn" ∧
    ExecuteRPC_chain [["leafFn"], ["baseFn"]] 1 = none ∧
    execRPCLevel ["leafFn"] 0 = some "leafFn" := by
  refine ⟨by decide, by decide, by decide, by decide⟩

/-! ## Parameterised RPC_EXEC entries (claim C4)

The entries are generic in the parameter types; a decoder has the shape of
the Decode specializations above: buffer to (flag, remaining buffer,
decoded value).  The result records whether the entry reported the id as
handled (the returned bool of ExecuteRPC), which arguments the target
function was invoked with (`none` when it was not invoked), and the buffer
state afterwards. -/

/-- RPC_EXEC_OneParam at its slot: at local id 0, decode the parameter and
invoke the function only when the decode succeeds, reporting the dispatch
as handled either way; at any other id, fall through to the next entry
(the local id decrement is the `else --__TEMP_ID` path). -/
def RPC_EXEC_OneParam {A : Type} (decA : ByteBuffer → Bool × ByteBuffer × A)
    (id : Nat) (params : ByteBuffer) : Bool × Option A × ByteBuffer :=
  if id = 0 then
    let rA := decA params
    (true, if rA.1 then some rA.2.2 else none, rA.2.1)
  else (false, none, params)

/-- RPC_EXEC_TwoParam at its slot: both decodes must succeed, with C++
short-circuit evaluation, before the function is invoked; dispatch is
reported as handled regardless. -/
def RPC_EXEC_TwoParam {A B : Type} (decA : ByteBuffer → Bool × ByteBuffer × A)
    (decB : ByteBuffer → Bool × ByteBuffer × B)
    (id : Nat) (params : ByteBuffer) : Bool × Option (A × B) × ByteBuffer :=
  if id = 0 then
    let rA := decA params
    if rA.1 then
      let rB := decB rA.2.1
      (true, if rB.1 then some (rA.2.2, rB.2.2) else none, rB.2.1)
    else (true, none, rA.2.1)
  else (false, none, params)

/-- Claim C4: when the id matches a declared slot but decoding any declared
parameter fails, the target function is not invoked (the invocation
component is none) while the dispatch is still reported as handled (the
returned flag is true).  Stated for the one-parameter entry and for the
two-parameter entry with a failure in either position. -/
theorem c4_decode_failure_skips_call {A B : Type}
    (decA : ByteBuffer → Bool × ByteBuffer × A)
    (decB : ByteBuffer → Bool × ByteBuffer × B)
    (params : ByteBuffer) :
    ((decA params).1 = false →
      RPC_EXEC_OneParam decA 0 params = (true, none, (decA params).2.1) ∧
      RPC_EXEC_TwoParam decA decB 0 params = (true, none, (decA params).2.1)) ∧
    ((decA params).1 = true → (decB (decA params).2.1).1 = false →
      RPC_EXEC_TwoParam decA decB 0 params =
        (true, none, (decB (decA params).2.1).2.1)) := by
  constructor
  · intro h
    constructor <;> simp [RPC_EXEC_OneParam, RPC_EXEC_TwoParam, h]
  · intro h1 h2
    simp [RPC_EXEC_TwoParam, h1, h2]

/-- C4 witness: a uint16 decoder on the empty buffer fails, so the
one-parameter entry reports handled without invoking; a uint8 decoder on a
one-byte buffer succeeds and the following uint16 decode fails, so the
two-parameter entry likewise reports handled without invoking. -/
theorem c4_decode_failure_skips_call_witness :
    RPC_EXEC_OneParam (fun b => Decode_uint16 b 0) 0 ByteBuffer.empty =
      (true, none, ByteBuffer.empty) ∧
    RPC_EXEC_TwoParam (fun b => Decode_uint8 b 0) (fun b => Decode_uint16 b 0)
      0 ⟨[5]⟩ = (true, none, ByteBuffer.empty) := by
  have h1 := (c4_decode_failure_skips_call (fun b => Decode_uint16 b 0)
    (fun b => Decode_uint16 b 0) ByteBuffer.empty).1 (by decide)
  have h2 := (c4_decode_failure_skips_call (fun b => Decode_uint8 b 0)
    (fun b => Decode_uint16 b 0) ⟨[5]⟩).2 (by decide) (by decide)
  exact ⟨by simpa using h1.1, by simpa using h2⟩

/-! ## The __CallRPC macro (claims C3 and C5) -/

/-- Outcome of one expansion of the __CallRPC macro body. -/
inductive CallOutcome where
  | Executed        -- direct local invocation of the target function
  | Enqueued        -- RemoteCallRPC: the request is queued for the wire
  | InvalidRights   -- LOG_ERROR invalid rights to call function
  | NotRegistered   -- LOG_ERROR not a registered RPC for the object
  | NoAction        -- networkID == 0: the guarded block is skipped entirely
deriving DecidableEq, Repr

/-- The __CallRPC macro body: look the function up via RegisterRPCs (its
result is the `registered` argument); on failure log an error.  On success,
and only when the network id is non-zero, either execute directly (host for
a Host-mode call, owner for an Owner-mode call), or remote the call unless
it is a Broadcast-mode call from a non-host, which is logged as a rights
error.  With network id zero the whole guarded block is skipped and the
macro performs no action at all. -/
def CallRPC_body (registered : Option RPCInfo) (networkId : Nat)
    (role : NetRole) : CallOutcome :=
  match registered with
  | none => CallOutcome.NotRegistered
  | some info =>
      if networkId ≠ 0 then
        if (IsNetHost role && (info.callingMode == RPCCallingMode.Host)) ||
            (IsNetOwner role && (info.callingMode == RPCCallingMode.Owner)) then
          CallOutcome.Executed
        else if IsNetHost role ||
            !(info.callingMode == RPCCallingMode.Broadcast) then
          CallOutcome.Enqueued
        else
          CallOutcome.InvalidRights
      else
        CallOutcome.NoAction

/-- Claim C3: evaluation at the failing input.  For every registered RPC
and every role, calling through the macro on an object whose network id is
zero performs NO action: the guarded block `if (GetNetworkID() != 0)` has
no else branch, so the call is neither executed locally (the claimed
pass-through), nor enqueued, nor logged. -/
theorem c3_zero_netid_noop :
    ∀ (info : RPCInfo) (role : NetRole),
      CallRPC_body (some info) 0 role = CallOutcome.NoAction ∧
      CallOutcome.NoAction ≠ CallOutcome.Executed := by
  intro info role
  exact ⟨by simp [CallRPC_body], by decide⟩

/-- Claim C5: a registered Broadcast-mode call issued on an object with a
non-zero network id by a caller that is not the net host (and therefore,
the mode being Broadcast, lacks direct execution rights as well as
remoting rights) is rejected with the local rights error: it is neither
executed nor enqueued, and not silently dropped. -/
theorem c5_no_rights_logged_error (info : RPCInfo) (netId : Nat) (role : NetRole)
    (hnet : netId ≠ 0) (hmode : info.callingMode = RPCCallingMode.Broadcast)
    (hhost : IsNetHost role = false) :
    CallRPC_body (some info) netId role = CallOutcome.InvalidRights ∧
    CallOutcome.InvalidRights ≠ CallOutcome.Executed ∧
    CallOutcome.InvalidRights ≠ CallOutcome.Enqueued ∧
    CallOutcome.InvalidRights ≠ CallOutcome.NoAction := by
  refine ⟨?_, by decide, by decide, by decide⟩
  have e1 : (RPCCallingMode.Broadcast == RPCCallingMode.Owner) = false := by decide
  have e2 : (RPCCallingMode.Broadcast == RPCCallingMode.Broadcast) = true := by decide
  simp [CallRPC_body, hnet, hmode, hhost, e1, e2]

/-- C5 witness: a RemotePuppet caller invoking a Broadcast RPC on a live
object (network id 5) hits the rights error. -/
theorem c5_no_rights_logged_error_witness :
    CallRPC_body (some ⟨0, RPCCallingMode.Broadcast, SocketType.UDP⟩) 5
      NetRole.RemotePuppet = CallOutcome.InvalidRights :=
  (c5_no_rights_logged_error ⟨0, RPCCallingMode.Broadcast, SocketType.UDP⟩ 5
    NetRole.RemotePuppet (by decide) (by decide) (by decide)).1

/-! ## Host session (NetHostSession.cpp in src/unnamed/part_002,
DefaultNetLayer.cpp in src/unnamed/part_000) -/

/-- NetIdentity: an (ip, port) endpoint pair, used as a map key. -/
structure NetIdentity where
  ip : Nat
  port : Nat
deriving DecidableEq, Repr

/-- NetClient: host-side record of one connected remote endpoint. -/
structure NetClient where
  identity : NetIdentity
deriving DecidableEq, Repr

/-- NetResponseCode taxonomy.  The header declaring it is not under src/;
modelled from the spec list: Unknown, BadRequest, BadVersions,
BadAuthentication, Accepted, Responded. -/
inductive NetResponseCode where
  | Unknown
  | BadRequest
  | BadVersions
  | BadAuthentication
  | Accepted
  | Responded
deriving DecidableEq, Repr

/-- Modelled from the spec: numeric wire codes of the response taxonomy in
declaration order (the concrete values do not influence any claim). -/
def NetResponseCode.toU16 : NetResponseCode → Nat
  | NetResponseCode.Unknown => 0
  | NetResponseCode.BadRequest => 1
  | NetResponseCode.BadVersions => 2
  | NetResponseCode.BadAuthentication => 3
  | NetResponseCode.Accepted => 4
  | NetResponseCode.Responded => 5

/-- NetRequestType, modelled from the spec: Ping, Connect and Query are the
request kinds the host handshake switches over. -/
inductive NetRequestType where
  | Ping
  | Connect
  | Query
deriving DecidableEq, Repr

/-- Modelled from the spec: mapping of the decoded uint16 request code onto
the request enumeration; any other code falls out of the switch (none). -/
def NetRequestType.ofU16 : Nat → Option NetRequestType
  | 0 => some NetRequestType.Ping
  | 1 => some NetRequestType.Connect
  | 2 => some NetRequestType.Query
  | _ => none

/-- Modelled from the spec: Version (Version.h is not under src/) is
represented as a single 32-bit version number riding the uint32 path; the
handshake only compares versions for equality, so the field layout is
immaterial. -/
def Decode_Version (b : ByteBuffer) (out : Nat) : Bool × ByteBuffer × Nat :=
  Decode_uint32 b out

/-- Modelled from the spec: the matching Version encoder. -/
def Encode_Version (b : ByteBuffer) (v : Nat) : ByteBuffer :=
  Encode_uint32 b v

/-- The byte values of the literal server name "Unnamed Server" sent in the
Query response. -/
def unnamedServer : List Nat :=
  [85, 110, 110, 97, 109, 101, 100, 32, 83, 101, 114, 118, 101, 114]

/-- The host-session state the claims touch: the tracked-client list
`m_clients`, the identity-keyed lookup `m_clientLookup` (association list
in insertion order, nullable values as the map stores raw pointers), the
engine and game versions compared during the handshake, the player cap,
and the password held by the net layer (src/unnamed/part_000). -/
structure NetHostSessionState where
  clients : List NetClient
  clientLookup : List (NetIdentity × Option NetClient)
  engineVersion : Nat
  gameVersion : Nat
  maxPlayerCount : Nat
  layerPassword : List Nat
deriving DecidableEq, Repr

/-- Find in the association list (std::unordered_map::find). -/
def lookupFind (m : List (NetIdentity × Option NetClient)) (k : NetIdentity) :
    Option (Option NetClient) :=
  match m with
  | [] => none
  | (k1, v) :: rest => if k1 = k then some v else lookupFind rest k

/-- Read through operator[] of std::unordered_map: a missing key is
default-inserted with a null pointer value and that null is returned. -/
def lookupBracket (m : List (NetIdentity × Option NetClient)) (k : NetIdentity) :
    Option NetClient × List (NetIdentity × Option NetClient) :=
  match lookupFind m k with
  | some v => (v, m)
  | none => (none, m ++ [(k, none)])

/-- Write through operator[] of std::unordered_map: update the entry in
place when the key exists, append otherwise. -/
def lookupAssign (m : List (NetIdentity × Option NetClient)) (k : NetIdentity)
    (v : Option NetClient) : List (NetIdentity × Option NetClient) :=
  match m with
  | [] => [(k, v)]
  | (k1, v1) :: rest =>
      if k1 = k then (k, v) :: rest else (k1, v1) :: lookupAssign rest k v

/-- NetHostSession::GetClient: reads `m_clientLookup[identity]` through
operator[], returns the stored pointer when it is non-null and null
otherwise.  The operator[] read mutates the map, so the function returns
the updated session state as well. -/
def GetClient (s : NetHostSessionState) (identity : NetIdentity) :
    Option NetClient × NetHostSessionState :=
  let r := lookupBracket s.clientLookup identity
  (match r.1 with
   | some client => some client
   | none => none,
   { s with clientLookup := r.2 })

/-- NetHostSession::VerifyHandshake: decode engine version, game version
and request type from the (already flipped) packet; answer BadRequest on a
header decode failure and BadVersions on a version mismatch; otherwise
switch on the request type: Ping answers Responded, Connect answers
Accepted (the password TODO in the source means nothing further is
checked), Query answers Responded plus player counts, server name and a
flags byte; a request code outside the switch returns Unknown without
sending.  Returns the response code paired with the response buffer
content.  The name and password fields that a Connect packet carries after
the header are never read here. -/
def VerifyHandshake (s : NetHostSessionState) (packet : ByteBuffer) :
    NetResponseCode × ByteBuffer :=
  let rEng := Decode_Version packet 0
  let rGame := Decode_Version rEng.2.1 0
  let rReq := Decode_uint16 rGame.2.1 0
  if ¬(rEng.1 ∧ rGame.1 ∧ rReq.1) then
    (NetResponseCode.BadRequest,
      Encode_uint16 ByteBuffer.empty (NetResponseCode.toU16 NetResponseCode.BadRequest))
  else if ¬(s.engineVersion = rEng.2.2 ∧ s.gameVersion = rGame.2.2) then
    (NetResponseCode.BadVersions,
      Encode_uint16 ByteBuffer.empty (NetResponseCode.toU16 NetResponseCode.BadVersions))
  else
    match NetRequestType.ofU16 rReq.2.2 with
    | some NetRequestType.Ping =>
        (NetResponseCode.Responded,
          Encode_uint16 ByteBuffer.empty (NetResponseCode.toU16 NetResponseCode.Responded))
    | some NetRequestType.Connect =>
        (NetResponseCode.Accepted,
          Encode_uint16 ByteBuffer.empty (NetResponseCode.toU16 NetResponseCode.Accepted))
    | some NetRequestType.Query =>
        (NetResponseCode.Responded,
          Encode_uint8
            (Encode_string
              (Encode_uint16
                (Encode_uint16
                  (Encode_uint16 ByteBuffer.empty
                    (NetResponseCode.toU16 NetResponseCode.Responded))
                  s.clients.length)
                s.maxPlayerCount)
              unnamedServer)
            0)
    | none => (NetResponseCode.Unknown, ByteBuffer.empty)

/-- NetHostSession::ForwardToClient: look the source identity up (the
operator[] side effect included); for an unknown source on the TCP socket,
run the handshake on a provisional client and, exactly when it returns
Accepted, append the client to `m_clients` and store it in
`m_clientLookup`; any other verdict deletes the provisional client and
keeps the state reached after the lookup.  Unknown sources on UDP and
known clients fall through (packet handling past the handshake is a TODO
in the source).  Returns the new state and the handshake verdict, if one
was computed. -/
def ForwardToClient (s : NetHostSessionState) (source : NetIdentity)
    (packet : ByteBuffer) (socketType : SocketType) :
    NetHostSessionState × Option NetResponseCode :=
  let g := GetClient s source
  let s1 := g.2
  if g.1 = none ∧ socketType = SocketType.TCP then
    let newClient : NetClient := ⟨source⟩
    let v := VerifyHandshake s1 packet
    if v.1 = NetResponseCode.Accepted then
      ({ s1 with
          clients := s1.clients ++ [newClient],
          clientLookup := lookupAssign s1.clientLookup source (some newClient) },
        some v.1)
    else
      (s1, some v.1)
  else
    (s1, none)

/-- DefaultNetLayer::OnDecodeHandshake (src/unnamed/part_000): decode the
player name and password strings from the connect payload; a decode
failure is BadRequest; a configured non-empty layer password differing
from the received one is BadAuthentication; otherwise the player name is
accepted.  Returns the verdict, the remaining buffer and the accepted
player name. -/
def OnDecodeHandshake (layerPassword : List Nat) (inBuffer : ByteBuffer) :
    NetResponseCode × ByteBuffer × List Nat :=
  let rName := Decode_string inBuffer []
  let rPass := Decode_string rName.2.1 []
  if ¬(rName.1 ∧ rPass.1) then
    (NetResponseCode.BadRequest, rPass.2.1, [])
  else if layerPassword ≠ [] ∧ layerPassword ≠ rPass.2.2 then
    (NetResponseCode.BadAuthentication, rPass.2.1, [])
  else
    (NetResponseCode.Accepted, rPass.2.1, rName.2.2)

/-! ## Claim C8: the password is not checked on Connect -/

/-- Host configured with engine version 10, game version 20, player cap 8
and the layer password "secret"; no client connected yet. -/
def hostWithPassword : NetHostSessionState :=
  { clients := []
    clientLookup := []
    engineVersion := 10
    gameVersion := 20
    maxPlayerCount := 8
    layerPassword := [115, 101, 99, 114, 101, 116] }

/-- A Connect handshake packet with matching versions, player name "Alice"
and the empty password, flipped as the session receive path does before
interpretation. -/
def connectPacketEmptyPassword : ByteBuffer :=
  (Encode_string
    (Encode_string
      (Encode_uint16
        (Encode_Version (Encode_Version ByteBuffer.empty 10) 20)
        1)
      [65, 108, 105, 99, 101])
    []).Flip

/-- Claim C8: evaluation at the failing input.  The host holds the
non-empty password "secret" and the Connect packet carries the empty
password, yet ForwardToClient answers Accepted and adds the client to both
the tracked-client list and the identity-keyed lookup: VerifyHandshake
never consults the password (its body carries a password-check TODO).  The
last conjunct shows the repository's own DefaultNetLayer handshake
decoder, which the session never calls, returns BadAuthentication on
exactly this name/password payload — the behaviour the claim (and the
spec) describes. -/
theorem c8_password_ignored_on_connect :
    (ForwardToClient hostWithPassword ⟨7, 9⟩ connectPacketEmptyPassword
        SocketType.TCP).2 = some NetResponseCode.Accepted ∧
    (ForwardToClient hostWithPassword ⟨7, 9⟩ connectPacketEmptyPassword
        SocketType.TCP).1.clients = [⟨⟨7, 9⟩⟩] ∧
    lookupFind (ForwardToClient hostWithPassword ⟨7, 9⟩
        connectPacketEmptyPassword SocketType.TCP).1.clientLookup ⟨7, 9⟩ =
      some (some ⟨⟨7, 9⟩⟩) ∧
    (OnDecodeHandshake hostWithPassword.layerPassword
        ((Encode_string (Encode_string ByteBuffer.empty [65, 108, 105, 99, 101])
          []).Flip)).1 = NetResponseCode.BadAuthentication := by
  exact ⟨by decide, by decide, by decide, by decide⟩

/-! ## Claim C10: GetClient default-inserts on unknown identities -/

/-- Claim C10: GetClient is not a pure query.  For an identity absent from
the identity-keyed lookup, GetClient returns null AND appends a null-valued
entry for that identity to the lookup (the operator[] default insertion),
growing the lookup by one, while the tracked-client list is untouched. -/
theorem c10_getclient_default_inserts (s : NetHostSessionState)
    (identity : NetIdentity)
    (h : lookupFind s.clientLookup identity = none) :
    GetClient s identity =
      (none, { s with clientLookup := s.clientLookup ++ [(identity, none)] }) ∧
    (GetClient s identity).2.clientLookup.length = s.clientLookup.length + 1 ∧
    (GetClient s identity).2.clients = s.clients := by
  have e : GetClient s identity =
      (none, { s with clientLookup := s.clientLookup ++ [(identity, none)] }) := by
    simp [GetClient, lookupBracket, h]
  exact ⟨e, by rw [e]; simp, by rw [e]⟩

/-- C10 witness: querying the empty lookup of the test host for the
identity (7, 9) returns null and leaves a null entry behind. -/
theorem c10_getclient_default_inserts_witness :
    GetClient hostWithPassword ⟨7, 9⟩ =
      (none, { hostWithPassword with clientLookup := [(⟨7, 9⟩, none)] }) ∧
    (GetClient hostWithPassword ⟨7, 9⟩).2.clientLookup.length =
      hostWithPassword.clientLookup.length + 1 ∧
    (GetClient hostWithPassword ⟨7, 9⟩).2.clients = hostWithPassword.clients := by
  have h := c10_getclient_default_inserts hostWithPassword ⟨7, 9⟩ (by decide)
  exact ⟨by simpa [hostWithPassword] using h.1, h.2.1, h.2.2⟩

end NetCore
